import Mathlib

/-!
Verification of `src/swarmsh_demo_workspace/initial/spans.rs`.

The source is a single straight-line Rust function `emit_thesis_spans`
that, given an opaque tracer (`&dyn Tracer`), issues five pairs of calls:
build a span with a name and one `brief` attribute, start it, and end it
immediately.  We embed the function as the sequence of calls it issues to
the tracing capability: the tracer is an opaque value the function never
inspects, and each `span_builder(..).with_attributes(..).start(tracer)`
becomes a `startSpan` event while each `.end()` becomes an `endSpan` event
naming the span handle it closes.
-/

/-- A key-value attribute, as built by `KeyValue::new(key, value)` in the
source.  Both components are string literals there. -/
structure KeyValue where
  key : String
  value : String
  deriving DecidableEq

/-- One call issued by the function to the tracing capability: starting a
named span carrying a list of attributes, or ending the span with the
given name. -/
inductive Event where
  | startSpan (name : String) (attrs : List KeyValue)
  | endSpan (name : String)
  deriving DecidableEq

/-- Shallow embedding of `emit_thesis_spans` from
`src/swarmsh_demo_workspace/initial/spans.rs` (lines 4-45).  The Rust
function receives an opaque `&dyn Tracer` it never inspects; we keep it as
a value of an arbitrary type.  The returned list is the sequence of calls
the function makes into the tracer, in program order: for each of the five
hard-coded spans, a start carrying the single `brief` attribute, followed
immediately by the end of that same span. -/
def emit_thesis_spans {α : Type} (tracer : α) : List Event :=
  [ Event.startSpan "swarmsh.thesis.telemetry_as_system"
      [⟨"brief", "Telemetry is the system, not an add-on."⟩],
    Event.endSpan "swarmsh.thesis.telemetry_as_system",
    Event.startSpan "swarmsh.thesis.span_drives_code"
      [⟨"brief", "Spans generate code & CLI."⟩],
    Event.endSpan "swarmsh.thesis.span_drives_code",
    Event.startSpan "swarmsh.thesis.trace_to_prompt_emergence"
      [⟨"brief", "Traces → LLM prompts (emergent)."⟩],
    Event.endSpan "swarmsh.thesis.trace_to_prompt_emergence",
    Event.startSpan "swarmsh.thesis.telemetry_communication_channel"
      [⟨"brief", "Spans are the agent messaging bus."⟩],
    Event.endSpan "swarmsh.thesis.telemetry_communication_channel",
    Event.startSpan "swarmsh.thesis.system_models_itself"
      [⟨"brief", "Trace graph is a live self-model."⟩],
    Event.endSpan "swarmsh.thesis.system_models_itself" ]

/-- The records (spans) produced by an event trace: one `(name, attributes)`
pair per `startSpan` call, in order. -/
def spanRecords : List Event → List (String × List KeyValue)
  | [] => []
  | Event.startSpan n a :: es => (n, a) :: spanRecords es
  | Event.endSpan _ :: es => spanRecords es

/-- The names of the records produced by an event trace, in open order. -/
def spanNames (es : List Event) : List String :=
  (spanRecords es).map Prod.fst

/-- Effect of one tracer call on the multiset of currently open span names:
a start opens its name, an end removes one occurrence of its name. -/
def stepOpen (os : List String) : Event → List String
  | Event.startSpan n _ => n :: os
  | Event.endSpan n => os.erase n

/-- The names of the spans still open (started but not ended) after a trace
of tracer calls has run, starting from no open span. -/
def openAfter (es : List Event) : List String :=
  es.foldl stepOpen []

/-- A trace in which every span is ended immediately after it is started:
the trace is a sequence of adjacent `startSpan n _, endSpan n` pairs with
nothing in between. -/
def immediatelyClosed : List Event → Bool
  | [] => true
  | Event.startSpan n _ :: Event.endSpan m :: es => n == m && immediatelyClosed es
  | _ => false

/-- Replay of a trace against the recording capability of spec section 6:
starting a span opens it, ending a span succeeds only if that span is
currently open.  `none` is the failure outcome (ending a span that was
never started or was already ended); `some os` is normal termination with
`os` the spans left open. -/
def runTracer : List Event → List String → Option (List String)
  | [], os => some os
  | Event.startSpan n _ :: es, os => runTracer es (n :: os)
  | Event.endSpan n :: es, os =>
      if n ∈ os then runTracer es (os.erase n) else none

/-- The five `(name, brief)` pairs hard-coded in the source, in program
order. -/
def thesisPoints : List (String × String) :=
  [ ("swarmsh.thesis.telemetry_as_system", "Telemetry is the system, not an add-on."),
    ("swarmsh.thesis.span_drives_code", "Spans generate code & CLI."),
    ("swarmsh.thesis.trace_to_prompt_emergence", "Traces → LLM prompts (emergent)."),
    ("swarmsh.thesis.telemetry_communication_channel", "Spans are the agent messaging bus."),
    ("swarmsh.thesis.system_models_itself", "Trace graph is a live self-model.") ]

/-- The name set exactly as written in spec section 8 (no `swarmsh.`
component).  Kept separate from the source-derived definitions so the
code's names can be compared against the spec's words. -/
def specNameSet : List String :=
  [ "thesis.telemetry_as_system",
    "thesis.span_drives_code",
    "thesis.trace_to_prompt_emergence",
    "thesis.telemetry_communication_channel",
    "thesis.system_models_itself" ]

/-- C1: for every tracer, a single invocation of `emit_thesis_spans`
produces exactly five records (spans), no more and no fewer. -/
theorem emit_thesis_spans_five_records {α : Type} (tracer : α) :
    (spanRecords (emit_thesis_spans tracer)).length = 5 := by
  simp only [emit_thesis_spans]
  decide

/-- C2 counterexample: it is false that every record name produced by
`emit_thesis_spans` lies in the spec's written set
{"thesis.telemetry_as_system", ...}: the code's names carry a leading
`swarmsh.` component the spec's set omits. -/
theorem emit_thesis_spans_names_not_in_spec_set :
    ¬ (∀ n ∈ spanNames (emit_thesis_spans ()), n ∈ specNameSet) := by
  decide

/-- C2 (amended): every record produced by `emit_thesis_spans` has a name
drawn from the fixed set {"swarmsh.thesis.telemetry_as_system",
"swarmsh.thesis.span_drives_code", "swarmsh.thesis.trace_to_prompt_emergence",
"swarmsh.thesis.telemetry_communication_channel",
"swarmsh.thesis.system_models_itself"}. -/
theorem emit_thesis_spans_names_in_fixed_set {α : Type} (tracer : α) :
    ∀ n ∈ spanNames (emit_thesis_spans tracer), n ∈ thesisPoints.map Prod.fst := by
  simp only [emit_thesis_spans]
  decide

/-- C2 witness: the amended theorem applied at a concrete tracer and a
concrete record name. -/
theorem emit_thesis_spans_names_in_fixed_set_witness :
    "swarmsh.thesis.span_drives_code" ∈ spanNames (emit_thesis_spans ()) ∧
      "swarmsh.thesis.span_drives_code" ∈ thesisPoints.map Prod.fst :=
  ⟨by decide,
   emit_thesis_spans_names_in_fixed_set () "swarmsh.thesis.span_drives_code" (by decide)⟩

/-- C3: every record produced by `emit_thesis_spans` carries exactly one
metadata field, whose key is "brief" and whose value is the literal
description text paired with that record's name in the source. -/
theorem emit_thesis_spans_brief_attribute {α : Type} (tracer : α) :
    ∀ p ∈ spanRecords (emit_thesis_spans tracer),
      p.2.length = 1 ∧ ∀ kv ∈ p.2, kv.key = "brief" ∧ (p.1, kv.value) ∈ thesisPoints := by
  simp only [emit_thesis_spans]
  decide

/-- C3 witness: the theorem applied at a concrete tracer and the concrete
first record. -/
theorem emit_thesis_spans_brief_attribute_witness :
    ("swarmsh.thesis.telemetry_as_system",
        [(⟨"brief", "Telemetry is the system, not an add-on."⟩ : KeyValue)]) ∈
        spanRecords (emit_thesis_spans ()) ∧
      ([(⟨"brief", "Telemetry is the system, not an add-on."⟩ : KeyValue)]).length = 1 :=
  ⟨by decide,
   (emit_thesis_spans_brief_attribute ()
      ("swarmsh.thesis.telemetry_as_system",
        [⟨"brief", "Telemetry is the system, not an add-on."⟩])
      (by decide)).1⟩

/-- C4: when `emit_thesis_spans` returns, every record it opened has been
closed: the set of open (started but not ended) records at function return
is empty. -/
theorem emit_thesis_spans_no_leaked_spans {α : Type} (tracer : α) :
    openAfter (emit_thesis_spans tracer) = [] := by
  simp only [emit_thesis_spans]
  decide

/-- C5: each of the five records is closed immediately after it is created,
before the next record is created: the call trace is exactly a sequence of
adjacent start/end pairs on matching names with nothing in between. -/
theorem emit_thesis_spans_immediately_closed {α : Type} (tracer : α) :
    immediatelyClosed (emit_thesis_spans tracer) = true := by
  simp only [emit_thesis_spans]
  decide

/-- C6: the record-open events emitted by `emit_thesis_spans` occur
strictly in program order: telemetry_as_system, span_drives_code,
trace_to_prompt_emergence, telemetry_communication_channel,
system_models_itself. -/
theorem emit_thesis_spans_program_order {α : Type} (tracer : α) :
    spanNames (emit_thesis_spans tracer) =
      [ "swarmsh.thesis.telemetry_as_system",
        "swarmsh.thesis.span_drives_code",
        "swarmsh.thesis.trace_to_prompt_emergence",
        "swarmsh.thesis.telemetry_communication_channel",
        "swarmsh.thesis.system_models_itself" ] := by
  simp only [emit_thesis_spans]
  decide

/-- C7: `emit_thesis_spans` has no failure path: replaying its calls
against a recording capability that only fails when asked to end a span
that is not open always terminates normally (`some`), with no error
outcome and no span left open, for every tracer. -/
theorem emit_thesis_spans_no_failure {α : Type} (tracer : α) :
    runTracer (emit_thesis_spans tracer) [] = some [] := by
  simp only [emit_thesis_spans]
  decide

/-- C8: the names of the five records produced by `emit_thesis_spans` are
pairwise distinct. -/
theorem emit_thesis_spans_names_nodup {α : Type} (tracer : α) :
    (spanNames (emit_thesis_spans tracer)).Nodup := by
  simp only [emit_thesis_spans]
  decide

/-- C9: `emit_thesis_spans` is deterministic and input-independent: any two
invocations on any two tracer states issue the same call trace, and the
emitted (name, attribute-list) records are the same fixed five-element
sequence. -/
theorem emit_thesis_spans_input_independent {α β : Type} (t1 : α) (t2 : β) :
    emit_thesis_spans t1 = emit_thesis_spans t2 ∧
      spanRecords (emit_thesis_spans t1) =
        thesisPoints.map (fun p => (p.1, [⟨"brief", p.2⟩])) := by
  refine ⟨rfl, ?_⟩
  simp only [emit_thesis_spans]
  decide

/-- C10: every record name produced by `emit_thesis_spans` begins with the
prefix "swarmsh.thesis." (its first fifteen characters are exactly that
string). -/
theorem emit_thesis_spans_names_swarmsh_thesis {α : Type} (tracer : α) :
    ∀ n ∈ spanNames (emit_thesis_spans tracer), n.take 15 = "swarmsh.thesis." := by
  simp only [emit_thesis_spans]
  decide

/-- C10 witness: the theorem applied at a concrete tracer and a concrete
record name. -/
theorem emit_thesis_spans_names_swarmsh_thesis_witness :
    "swarmsh.thesis.system_models_itself" ∈ spanNames (emit_thesis_spans ()) ∧
      ("swarmsh.thesis.system_models_itself").take 15 = "swarmsh.thesis." :=
  ⟨by decide,
   emit_thesis_spans_names_swarmsh_thesis () "swarmsh.thesis.system_models_itself"
     (by decide)⟩
